import Mathlib

/-!
Shallow embedding of the Gira System 3000 BLE integration
(`gira_ble.py` and `cover.py`).

Python byte strings are modelled as `List Nat` (each element a byte value),
Python `int` as `ℤ`, and fallible operations as `Except`/`Option`.
The float expression `round(100 * (255 - b) / 255)` is modelled as the exact
rational rounded with Mathlib's `round`; for every byte `b ∈ [0,255]` the
rational `100*(255-b)/255 = 20*(255-b)/51` is never a half-integer
(it is a half-integer only if 51 divides 40*(255-b) with odd quotient,
which never happens), so round-half-up, round-half-to-even (Python's rule)
and the IEEE-double evaluation all agree; the double is within 2⁻⁴⁰ of the
exact value while the exact value is at least 1/102 away from any
half-integer.
-/

namespace GiraBLE

/-! ## Command-generation constants (`gira_ble.py`, lines 22-38) -/

/-- Source `COMMAND_PREFIX = bytearray.fromhex("F6032001")` -/
def COMMAND_PREFIX : List Nat := [0xF6, 0x03, 0x20, 0x01]

/-- Source `COMMAND_SUFFIX = bytearray.fromhex("1001")` -/
def COMMAND_SUFFIX : List Nat := [0x10, 0x01]

/-- Source `PROPERTY_ID_MOVE = 0xFF` -/
def PROPERTY_ID_MOVE : ℤ := 0xFF

/-- Source `PROPERTY_ID_STOP = 0xFD` -/
def PROPERTY_ID_STOP : ℤ := 0xFD

/-- Source `PROPERTY_ID_STEP = 0xFE` -/
def PROPERTY_ID_STEP : ℤ := 0xFE

/-- Source `PROPERTY_ID_SET_POSITION = 0xFC` -/
def PROPERTY_ID_SET_POSITION : ℤ := 0xFC

/-- Source `VALUE_UP = 0x00` -/
def VALUE_UP : ℤ := 0x00

/-- Source `VALUE_DOWN = 0x01` -/
def VALUE_DOWN : ℤ := 0x01

/-- Source `VALUE_STOP = 0x00` -/
def VALUE_STOP : ℤ := 0x00

/-- Source `GIRA_MANUFACTURER_ID = 1412` -/
def GIRA_MANUFACTURER_ID : Nat := 1412

/-- Source `BROADCAST_PREFIX = bytearray.fromhex("F7032001F61001")` -/
def BROADCAST_PREFIX : List Nat := [0xF7, 0x03, 0x20, 0x01, 0xF6, 0x10, 0x01]

/-! ## Command codec (`gira_ble.py`, lines 117-130) -/

/-- Python `n.to_bytes(1, 'big')`: yields the single byte `n` when
`0 ≤ n < 256`, raises `OverflowError` otherwise. -/
def to_bytes_1 (n : ℤ) : Except String Nat :=
  if 0 ≤ n ∧ n < 256 then .ok n.toNat else .error "OverflowError"

/-- Function `_generate_command(property_id, value)`:
`COMMAND_PREFIX + property_id.to_bytes(1,'big') + COMMAND_SUFFIX + value.to_bytes(1,'big')`. -/
def _generate_command (property_id value : ℤ) : Except String (List Nat) :=
  match to_bytes_1 property_id, to_bytes_1 value with
  | .ok p, .ok v => .ok (COMMAND_PREFIX ++ [p] ++ COMMAND_SUFFIX ++ [v])
  | .error e, _ => .error e
  | .ok _, .error e => .error e

/-- Function `generate_position_command(percentage)`: raises `ValueError` unless
`0 <= percentage <= 100`, else `_generate_command(PROPERTY_ID_SET_POSITION, percentage)`. -/
def generate_position_command (percentage : ℤ) : Except String (List Nat) :=
  if 0 ≤ percentage ∧ percentage ≤ 100 then
    _generate_command PROPERTY_ID_SET_POSITION percentage
  else
    .error "Percentage must be between 0 and 100."

/-! ## Broadcast decoding (`gira_ble.py`, lines 70-113) -/

/-- Line 100 `ha_position = round(100 * (255 - position_byte) / 255)`;
exact-rational model of the Python float rounding (see module comment:
no tie ever occurs, so all rounding modes agree on bytes). -/
def ha_position (position_byte : Nat) : ℤ :=
  round ((100 * ((255 : ℚ) - position_byte)) / 255)

/-- Python `bytes.find(sub)`: index of the first occurrence of `sub`
in the byte string, `None` here standing for Python's `-1`. -/
def findSub (sub : List Nat) : List Nat → Option Nat
  | [] => if sub.isPrefixOf [] then some 0 else none
  | a :: rest =>
    if sub.isPrefixOf (a :: rest) then some 0
    else (findSub sub rest).map (· + 1)

/-- The payload-decoding core of `_async_handle_bluetooth_event`
(lines 83-100): find `BROADCAST_PREFIX`, require at least one byte after it,
and convert that byte with the inversion formula. Total: the code's
`try/except` and explicit `-1`/length guards mean no exception escapes. -/
def decodeBroadcast (manufacturer_data : List Nat) : Option ℤ :=
  match findSub BROADCAST_PREFIX manufacturer_data with
  | none => none
  | some prefix_index =>
    if manufacturer_data.length < prefix_index + BROADCAST_PREFIX.length + 1 then
      none
    else
      some (ha_position (manufacturer_data.getD (prefix_index + BROADCAST_PREFIX.length) 0))

/-- Handler `_async_handle_bluetooth_event` (lines 70-113): address filter
(case-insensitive via `.upper()`), manufacturer-data lookup under id 1412
(Python's `if not manufacturer_data` also drops an empty payload), then the
decoding core. Returns the decoded position it stores into `self.data`. -/
def handle_bluetooth_event (self_address event_address : String)
    (manufacturer_data_map : Nat → Option (List Nat)) : Option ℤ :=
  if event_address.toUpper ≠ self_address.toUpper then none
  else
    match manufacturer_data_map GIRA_MANUFACTURER_ID with
    | none => none
    | some d => if d = [] then none else decodeBroadcast d

/-! ## Connection manager (`gira_ble.py`, lines 133-222)

`send_command` is embedded as a big-step function over the client state
(the stored `self._client` handle) and an environment describing the
transport's responses during this one call. The `async with self._is_connecting`
lock serializes calls, so one call runs to completion against one
environment; the trace of transport actions records what I/O happened
and in which order. -/

/-- The transport's behaviour during one `send_command` call:
whether the stored client (if any) reports `is_connected`, whether the
direct write on it succeeds, whether `async_ble_device_from_address`
finds the device, whether `establish_connection` succeeds (after its
internal retries), whether the fresh-path `write_gatt_char` succeeds, and whether the fresh client still reports
`is_connected` when the `finally` block runs. -/
structure Transport where
  storedConnected : Bool
  directWriteOk : Bool
  deviceFound : Bool
  connectOk : Bool
  writeOk : Bool
  connectedAtCleanup : Bool
deriving DecidableEq

/-- One observable transport interaction of `send_command`. -/
inductive Action where
  | resolveDevice
  | establishConnection (timeout maxAttempts : Nat)
  | writeGattChar (command : List Nat) (response : Bool)
  | disconnect
deriving DecidableEq

/-- The error conditions surfaced by the client: `ValueError` from
`generate_position_command`, and the two distinct `UpdateFailed` raises of
`send_command` (device not in the discovery cache, lines 166-169, versus
connect/write failure, lines 190-192). -/
inductive GiraError where
  | invalidArgument
  | deviceNotFound
  | commandFailed
deriving DecidableEq

/-- The client's persistent state: `self._client` (`None` or a handle). -/
structure GiraBLEClient where
  _client : Option Nat
deriving DecidableEq

/-- The fresh-connection path of `send_command` (lines 164-197): resolve the
device (raise `UpdateFailed` if absent — note this raise happens before the
`try`, so `self._client` is untouched there), `establish_connection` with
`timeout=60, max_attempts=5`, store the handle in `self._client`, write with
`response=True`, and in `finally` disconnect if still connected and always
reset `self._client = None`. -/
def freshSend (env : Transport) (st : GiraBLEClient) (command : List Nat)
    (acc : List Action) : Except GiraError Unit × GiraBLEClient × List Action :=
  let acc1 := acc ++ [Action.resolveDevice]
  if env.deviceFound = false then
    (.error .deviceNotFound, st, acc1)
  else
    let acc2 := acc1 ++ [Action.establishConnection 60 5]
    if env.connectOk = false then
      -- `establish_connection` raised: local `client` is still None, the
      -- `finally` skips the disconnect and sets `self._client = None`.
      (.error .commandFailed, ⟨none⟩, acc2)
    else
      -- line 180: `self._client = client`; then the write, then `finally`
      -- disconnects (only if still connected) and sets `self._client = None`.
      let acc3 := acc2 ++ [Action.writeGattChar command true]
      let acc4 := acc3 ++ (if env.connectedAtCleanup then [Action.disconnect] else [])
      if env.writeOk then (.ok (), ⟨none⟩, acc4)
      else (.error .commandFailed, ⟨none⟩, acc4)

/-- Method `send_command` (lines 144-197). If a stored client exists and reports
`is_connected`, write directly with `response=False` and return, keeping the
handle; on failure of that write, disconnect, clear `self._client`, and fall
through to the fresh-connection path. -/
def send_command (env : Transport) (st : GiraBLEClient) (command : List Nat) :
    Except GiraError Unit × GiraBLEClient × List Action :=
  match st._client with
  | some _ =>
    if env.storedConnected then
      if env.directWriteOk then
        (.ok (), st, [Action.writeGattChar command false])
      else
        freshSend env ⟨none⟩ command [Action.writeGattChar command false, Action.disconnect]
    else
      freshSend env st command []
  | none => freshSend env st command []

/-- Method `send_up_command` (lines 199-201); the `ValueError` branch of
`_generate_command` is unreachable for the fixed constants and would
propagate before any send. -/
def send_up_command (env : Transport) (st : GiraBLEClient) :
    Except GiraError Unit × GiraBLEClient × List Action :=
  match _generate_command PROPERTY_ID_MOVE VALUE_UP with
  | .ok command => send_command env st command
  | .error _ => (.error .invalidArgument, st, [])

/-- Method `send_down_command` (lines 203-205). -/
def send_down_command (env : Transport) (st : GiraBLEClient) :
    Except GiraError Unit × GiraBLEClient × List Action :=
  match _generate_command PROPERTY_ID_MOVE VALUE_DOWN with
  | .ok command => send_command env st command
  | .error _ => (.error .invalidArgument, st, [])

/-- Method `send_stop_command` (lines 207-209). -/
def send_stop_command (env : Transport) (st : GiraBLEClient) :
    Except GiraError Unit × GiraBLEClient × List Action :=
  match _generate_command PROPERTY_ID_STOP VALUE_STOP with
  | .ok command => send_command env st command
  | .error _ => (.error .invalidArgument, st, [])

/-- Method `set_absolute_position` (lines 219-222): the command is generated (and
its range check performed) before `send_command` is entered, so an
out-of-range percentage raises with no transport interaction at all. -/
def set_absolute_position (env : Transport) (st : GiraBLEClient) (percentage : ℤ) :
    Except GiraError Unit × GiraBLEClient × List Action :=
  match generate_position_command percentage with
  | .error _ => (.error .invalidArgument, st, [])
  | .ok command => send_command env st command

/-- Client states reachable through the public API: `__init__` sets
`self._client = None` (line 141) and every later state is the post-state of
some `send_command` call (every other method either calls `send_command` or
leaves the state untouched). -/
inductive ClientReachable : GiraBLEClient → Prop
  | init : ClientReachable ⟨none⟩
  | send (env : Transport) (command : List Nat) {st : GiraBLEClient} :
      ClientReachable st → ClientReachable (send_command env st command).2.1

/-! ## Cover entity (`cover.py`, lines 41-139) -/

/-- The mutable state of `GireaSystem3000Cover` that the claims touch:
the inherited `_attr_available` flag, `_attr_current_cover_position`, and
the coordinator's `last_update_success` flag (cleared by
`_async_handle_unavailable`, `gira_ble.py` lines 62-68). -/
structure CoverState where
  attr_available : Bool
  attr_current_cover_position : Option ℤ
  last_update_success : Bool
deriving DecidableEq

namespace GireaSystem3000Cover

/-- The `available` property (`cover.py`, lines 74-78): returns `True`
unconditionally, ignoring every state attribute. -/
def available (_st : CoverState) : Bool := true

/-- Method `async_open_cover` (lines 80-86): on `UpdateFailed` from the client,
set `_attr_available = False`; no other state change. -/
def async_open_cover (env : Transport) (c : GiraBLEClient) (s : CoverState) :
    GiraBLEClient × CoverState :=
  match send_up_command env c with
  | (.ok _, c2, _) => (c2, s)
  | (.error _, c2, _) => (c2, { s with attr_available := false })

/-- Method `async_close_cover` (lines 88-94). -/
def async_close_cover (env : Transport) (c : GiraBLEClient) (s : CoverState) :
    GiraBLEClient × CoverState :=
  match send_down_command env c with
  | (.ok _, c2, _) => (c2, s)
  | (.error _, c2, _) => (c2, { s with attr_available := false })

/-- Method `async_stop_cover` (lines 96-102). -/
def async_stop_cover (env : Transport) (c : GiraBLEClient) (s : CoverState) :
    GiraBLEClient × CoverState :=
  match send_stop_command env c with
  | (.ok _, c2, _) => (c2, s)
  | (.error _, c2, _) => (c2, { s with attr_available := false })

/-- Method `async_set_cover_position` (lines 104-110): only `UpdateFailed` is
caught; a `ValueError` from the codec would propagate, leaving the state
unchanged. -/
def async_set_cover_position (env : Transport) (c : GiraBLEClient) (s : CoverState)
    (position : ℤ) : GiraBLEClient × CoverState :=
  match set_absolute_position env c position with
  | (.ok _, c2, _) => (c2, s)
  | (.error .invalidArgument, c2, _) => (c2, s)
  | (.error _, c2, _) => (c2, { s with attr_available := false })

/-- Callback `_async_handle_unavailable` (`gira_ble.py`, lines 62-68): marks the
coordinator's data stale; no position or availability attribute changes. -/
def _async_handle_unavailable (s : CoverState) : CoverState :=
  { s with last_update_success := false }

/-- Callback `_handle_coordinator_update` (lines 126-138): adopt a freshly decoded
position when one is present, otherwise keep the cached value. -/
def _handle_coordinator_update (s : CoverState) (data : Option ℤ) : CoverState :=
  match data with
  | some p => { s with attr_current_cover_position := some p }
  | none => s

/-- Cover states reachable from entity construction (`__init__` leaves
`_attr_available` at its `True` default and the position `None`) under the
entity's operations and coordinator callbacks, with arbitrary transport
behaviour. -/
inductive CoverReachable : GiraBLEClient × CoverState → Prop
  | init : CoverReachable (⟨none⟩, ⟨true, none, true⟩)
  | open_cover (env : Transport) {c : GiraBLEClient} {s : CoverState} :
      CoverReachable (c, s) → CoverReachable (async_open_cover env c s)
  | close_cover (env : Transport) {c : GiraBLEClient} {s : CoverState} :
      CoverReachable (c, s) → CoverReachable (async_close_cover env c s)
  | stop_cover (env : Transport) {c : GiraBLEClient} {s : CoverState} :
      CoverReachable (c, s) → CoverReachable (async_stop_cover env c s)
  | set_position (env : Transport) (p : ℤ) {c : GiraBLEClient} {s : CoverState} :
      CoverReachable (c, s) → CoverReachable (async_set_cover_position env c s p)
  | unavailable {c : GiraBLEClient} {s : CoverState} :
      CoverReachable (c, s) → CoverReachable (c, _async_handle_unavailable s)
  | update (data : Option ℤ) {c : GiraBLEClient} {s : CoverState} :
      CoverReachable (c, s) → CoverReachable (c, _handle_coordinator_update s data)

end GireaSystem3000Cover

/-! ## Concrete transport environments used to instantiate the theorems -/

/-- A transport on which everything succeeds. -/
def envAllOk : Transport :=
  { storedConnected := true, directWriteOk := true, deviceFound := true,
    connectOk := true, writeOk := true, connectedAtCleanup := true }

/-- A transport whose discovery cache does not contain the device. -/
def envNoDevice : Transport :=
  { storedConnected := true, directWriteOk := true, deviceFound := false,
    connectOk := true, writeOk := true, connectedAtCleanup := true }

/-! ## Helper lemmas -/

/-- Computational form of `ha_position`: the round of `100*(255-b)/255`
equals the integer division `(40*(255-b)+51)/102`. -/
theorem ha_position_eq (b : Nat) : ha_position b = (40 * (255 - (b : ℤ)) + 51) / 102 := by
  rw [ha_position, round_eq]
  have h : (100 * ((255 : ℚ) - b)) / 255 + 1 / 2
      = ((40 * (255 - (b : ℤ)) + 51 : ℤ) : ℚ) / ((102 : ℕ) : ℚ) := by
    push_cast
    ring
  rw [h, Rat.floor_intCast_div_natCast]
  norm_num

/-- Bridge between the boolean prefix test used by `findSub` and the
propositional prefix relation. -/
theorem isPrefixOf_eq_true_iff (l₁ l₂ : List Nat) : l₁.isPrefixOf l₂ = true ↔ l₁ <+: l₂ :=
  List.isPrefixOf_iff_prefix

/-- When `sub` starts the data, `findSub` reports index 0. -/
theorem findSub_of_isPrefixOf {sub data : List Nat} (h : sub.isPrefixOf data = true) :
    findSub sub data = some 0 := by
  cases data with
  | nil => rw [findSub, if_pos h]
  | cons a rest => rw [findSub, if_pos h]

/-- The search fails exactly when `sub` starts at no offset of the data. -/
theorem findSub_eq_none_iff (sub data : List Nat) :
    findSub sub data = none ↔ ∀ i, ¬ sub <+: data.drop i := by
  induction data with
  | nil =>
    constructor
    · intro h i hp
      rw [List.drop_nil] at hp
      rw [← isPrefixOf_eq_true_iff] at hp
      rw [findSub, if_pos hp] at h
      exact Option.noConfusion h
    · intro h
      have h0 := h 0
      rw [List.drop_nil, ← isPrefixOf_eq_true_iff] at h0
      rw [findSub, if_neg h0]
  | cons a rest ih =>
    constructor
    · intro h i hp
      by_cases hpre : sub.isPrefixOf (a :: rest) = true
      · rw [findSub, if_pos hpre] at h
        exact Option.noConfusion h
      · rw [findSub, if_neg hpre, Option.map_eq_none'] at h
        cases i with
        | zero =>
          rw [List.drop_zero, ← isPrefixOf_eq_true_iff] at hp
          exact hpre hp
        | succ m =>
          rw [List.drop_succ_cons] at hp
          exact (ih.mp h) m hp
    · intro h
      have h0 := h 0
      rw [List.drop_zero, ← isPrefixOf_eq_true_iff] at h0
      rw [findSub, if_neg h0, Option.map_eq_none']
      exact ih.mpr fun m => by
        have hm := h (m + 1)
        rwa [List.drop_succ_cons] at hm

/-- The search returns `i` exactly when `sub` starts at offset `i` and at no
earlier offset: `bytes.find` reports the first occurrence. -/
theorem findSub_eq_some_iff (sub data : List Nat) (i : Nat) :
    findSub sub data = some i ↔
      (sub <+: data.drop i ∧ ∀ j, j < i → ¬ sub <+: data.drop j) := by
  induction data generalizing i with
  | nil =>
    by_cases h : sub.isPrefixOf ([] : List Nat) = true
    · rw [findSub, if_pos h]
      have hp : sub <+: ([] : List Nat) := (isPrefixOf_eq_true_iff _ _).mp h
      constructor
      · intro heq
        injection heq with heq
        subst heq
        exact ⟨by simpa using hp, fun j hj => absurd hj (Nat.not_lt_zero j)⟩
      · rintro ⟨-, hmin⟩
        rcases Nat.eq_zero_or_pos i with rfl | hpos
        · rfl
        · exact absurd (by simpa using hp) (hmin 0 hpos)
    · rw [findSub, if_neg h]
      constructor
      · intro heq
        exact Option.noConfusion heq
      · rintro ⟨hp, -⟩
        rw [List.drop_nil, ← isPrefixOf_eq_true_iff] at hp
        exact absurd hp h
  | cons a rest ih =>
    by_cases h : sub.isPrefixOf (a :: rest) = true
    · rw [findSub, if_pos h]
      have hp : sub <+: a :: rest := (isPrefixOf_eq_true_iff _ _).mp h
      constructor
      · intro heq
        injection heq with heq
        subst heq
        exact ⟨by simpa using hp, fun j hj => absurd hj (Nat.not_lt_zero j)⟩
      · rintro ⟨-, hmin⟩
        rcases Nat.eq_zero_or_pos i with rfl | hpos
        · rfl
        · exact absurd (by simpa using hp) (hmin 0 hpos)
    · have hnp : ¬ sub <+: a :: rest := fun hp => h ((isPrefixOf_eq_true_iff _ _).mpr hp)
      rw [findSub, if_neg h]
      cases i with
      | zero =>
        constructor
        · intro heq
          rcases Option.map_eq_some'.mp heq with ⟨k, -, hk⟩
          exact absurd hk (Nat.succ_ne_zero k)
        · rintro ⟨hp, -⟩
          rw [List.drop_zero] at hp
          exact absurd hp hnp
      | succ m =>
        constructor
        · intro heq
          rcases Option.map_eq_some'.mp heq with ⟨k, hk, hki⟩
          rw [show k = m from by omega] at hk
          rcases (ih m).mp hk with ⟨hp, hmin⟩
          refine ⟨by simpa [List.drop_succ_cons] using hp, ?_⟩
          intro j hj
          cases j with
          | zero => simpa using hnp
          | succ l =>
            rw [List.drop_succ_cons]
            exact hmin l (by omega)
        · rintro ⟨hp, hmin⟩
          rw [List.drop_succ_cons] at hp
          have hrest : findSub sub rest = some m := (ih m).mpr
            ⟨hp, fun l hl => by
              have hl1 := hmin (l + 1) (by omega)
              rwa [List.drop_succ_cons] at hl1⟩
          rw [hrest]
          rfl

/-- In-range percentages produce the 8-byte Set-Position frame. -/
theorem generate_position_command_ok (p : ℤ) (h0 : 0 ≤ p) (h1 : p ≤ 100) :
    generate_position_command p =
      .ok [0xF6, 0x03, 0x20, 0x01, 0xFC, 0x10, 0x01, p.toNat] := by
  have hv : to_bytes_1 p = .ok p.toNat := by
    rw [to_bytes_1, if_pos ⟨h0, by omega⟩]
  have hp : to_bytes_1 PROPERTY_ID_SET_POSITION = .ok 0xFC := rfl
  rw [generate_position_command, if_pos ⟨h0, h1⟩]
  simp only [_generate_command, hp, hv]
  rfl

/-- Out-of-range percentages raise the `ValueError`. -/
theorem generate_position_command_err (p : ℤ) (h : ¬ (0 ≤ p ∧ p ≤ 100)) :
    generate_position_command p = .error "Percentage must be between 0 and 100." := by
  rw [generate_position_command, if_neg h]

/-- With no stored client, `send_command` is exactly the fresh path. -/
theorem send_command_of_none (env : Transport) (command : List Nat) :
    send_command env ⟨none⟩ command = freshSend env ⟨none⟩ command [] := rfl

/-- Starting with no stored client, `send_command` also ends with none. -/
theorem send_command_post_state (env : Transport) (command : List Nat) :
    (send_command env ⟨none⟩ command).2.1 = ⟨none⟩ := by
  rw [send_command_of_none]
  cases hdf : env.deviceFound <;> cases hco : env.connectOk <;> cases hwo : env.writeOk <;>
    simp [freshSend, hdf, hco, hwo]

/-- The fresh path's first transport interaction is the cache lookup. -/
theorem send_command_trace_head (env : Transport) (command : List Nat) :
    ((send_command env ⟨none⟩ command).2.2).head? = some Action.resolveDevice := by
  rw [send_command_of_none]
  cases hdf : env.deviceFound <;> cases hco : env.connectOk <;> cases hwo : env.writeOk <;>
    cases hcc : env.connectedAtCleanup <;> simp [freshSend, hdf, hco, hwo, hcc]

/-- The fresh path never performs a `response=False` write. -/
theorem send_command_no_fast_write (env : Transport) (command c : List Nat) :
    Action.writeGattChar c false ∉ (send_command env ⟨none⟩ command).2.2 := by
  rw [send_command_of_none]
  cases hdf : env.deviceFound <;> cases hco : env.connectOk <;> cases hwo : env.writeOk <;>
    cases hcc : env.connectedAtCleanup <;> simp [freshSend, hdf, hco, hwo, hcc]

/-- Whenever a fresh connection was established and is still connected at
cleanup time, the `finally` block disconnects it. -/
theorem send_command_disconnects (env : Transport) (command : List Nat)
    (hdf : env.deviceFound = true) (hco : env.connectOk = true)
    (hcc : env.connectedAtCleanup = true) :
    Action.disconnect ∈ (send_command env ⟨none⟩ command).2.2 := by
  rw [send_command_of_none]
  cases hwo : env.writeOk <;> simp [freshSend, hdf, hco, hcc, hwo]

/-- Every reachable client state has `self._client = None`: it starts that
way and every `send_command` restores it before returning. -/
theorem reachable_client_none {st : GiraBLEClient} (h : ClientReachable st) :
    st = ⟨none⟩ := by
  induction h with
  | init => rfl
  | send env command h ih => rw [ih, send_command_post_state]

/-- Concrete evaluation: the broadcast payload `F7 03 20 01 F6 10 01 7A`
decodes to position 52. -/
theorem handle_event_7A :
    handle_bluetooth_event "00:11:22:33:44:55" "00:11:22:33:44:55"
      (fun k => if k = 1412 then some [0xF7, 0x03, 0x20, 0x01, 0xF6, 0x10, 0x01, 0x7A] else none)
      = some 52 := by
  simp [handle_bluetooth_event, GIRA_MANUFACTURER_ID, decodeBroadcast, findSub, BROADCAST_PREFIX,
    List.isPrefixOf, ha_position_eq]

/-! ## Claim theorems -/

/-- C1: for every percentage `p ∈ [0,100]`, encoding Set-Position(p) yields
exactly the 8-byte sequence `COMMAND_PREFIX ++ [0xFC] ++ COMMAND_SUFFIX ++ [p]`,
i.e. `F6 03 20 01 FC 10 01 p`; in particular at `p = 42` the bytes are
`F6 03 20 01 FC 10 01 2A` (see the witness). -/
theorem C1_encode_set_position (p : ℤ) (h0 : 0 ≤ p) (h1 : p ≤ 100) :
    generate_position_command p =
      .ok (COMMAND_PREFIX ++ [0xFC] ++ COMMAND_SUFFIX ++ [p.toNat]) ∧
    COMMAND_PREFIX ++ [0xFC] ++ COMMAND_SUFFIX ++ [p.toNat]
      = [0xF6, 0x03, 0x20, 0x01, 0xFC, 0x10, 0x01, p.toNat] := by
  refine ⟨?_, rfl⟩
  rw [generate_position_command_ok p h0 h1]
  rfl

/-- Witness for C1 at `p = 42`: `encode(Set-Position(42)) = F6032001FC10012A`. -/
theorem C1_encode_set_position_witness :
    generate_position_command 42 = .ok [0xF6, 0x03, 0x20, 0x01, 0xFC, 0x10, 0x01, 0x2A] := by
  have h := C1_encode_set_position 42 (by decide) (by decide)
  rw [h.1]
  exact congrArg Except.ok h.2

/-- C2: encoding Set-Position(p) succeeds iff `0 ≤ p ≤ 100` (otherwise it
raises the `ValueError` — deterministically, since the encoder is a pure
function); whenever it succeeds the final byte of the frame equals `p`; and
an out-of-range `p` makes `set_absolute_position` fail with the
invalid-argument error before any transport action is performed (empty
action trace). -/
theorem C2_encode_validation (p : ℤ) :
    ((∃ bs, generate_position_command p = .ok bs) ↔ (0 ≤ p ∧ p ≤ 100)) ∧
    (∀ bs, generate_position_command p = .ok bs → bs.getLast? = some p.toNat) ∧
    (∀ (env : Transport) (st : GiraBLEClient), ¬ (0 ≤ p ∧ p ≤ 100) →
      set_absolute_position env st p = (.error .invalidArgument, st, [])) := by
  refine ⟨⟨?_, ?_⟩, ?_, ?_⟩
  · rintro ⟨bs, hbs⟩
    by_contra hc
    rw [generate_position_command_err p hc] at hbs
    exact Except.noConfusion hbs
  · rintro ⟨h0, h1⟩
    exact ⟨_, generate_position_command_ok p h0 h1⟩
  · intro bs hbs
    by_cases hc : 0 ≤ p ∧ p ≤ 100
    · rw [generate_position_command_ok p hc.1 hc.2] at hbs
      injection hbs with hbs
      subst hbs
      rfl
    · rw [generate_position_command_err p hc] at hbs
      exact Except.noConfusion hbs
  · intro env st hc
    simp [set_absolute_position, generate_position_command_err p hc]

/-- Witness for C2 at `p = 42` (in range: encoding succeeds) and `p = 101`
(out of range: invalid-argument failure with no transport action). -/
theorem C2_encode_validation_witness :
    (∃ bs, generate_position_command 42 = .ok bs) ∧
    set_absolute_position envAllOk ⟨none⟩ 101 =
      (.error .invalidArgument, ⟨none⟩, []) :=
  ⟨(C2_encode_validation 42).1.mpr (by decide),
   (C2_encode_validation 101).2.2 envAllOk ⟨none⟩ (by decide)⟩

/-- C3: for every raw byte `b ∈ [0,255]`, decoding the payload
`BROADCAST_PREFIX ++ [b]` yields `round(100*(255-b)/255)`; at the boundaries
`b = 0` decodes to 100 and `b = 255` decodes to 0. -/
theorem C3_broadcast_decode (b : Nat) (hb : b ≤ 255) :
    decodeBroadcast (BROADCAST_PREFIX ++ [b])
        = some (round ((100 * ((255 : ℚ) - b)) / 255)) ∧
    decodeBroadcast (BROADCAST_PREFIX ++ [0]) = some 100 ∧
    decodeBroadcast (BROADCAST_PREFIX ++ [255]) = some 0 := by
  have key : ∀ c : Nat, decodeBroadcast (BROADCAST_PREFIX ++ [c]) = some (ha_position c) := by
    intro c
    have hfind : findSub BROADCAST_PREFIX (BROADCAST_PREFIX ++ [c]) = some 0 :=
      findSub_of_isPrefixOf ((isPrefixOf_eq_true_iff _ _).mpr (List.prefix_append _ _))
    simp only [decodeBroadcast, hfind]
    norm_num [BROADCAST_PREFIX]
  refine ⟨key b, ?_, ?_⟩
  · rw [key 0, ha_position_eq]
    decide
  · rw [key 255, ha_position_eq]
    decide

/-- Witness for C3 at `b = 122`. -/
theorem C3_broadcast_decode_witness :
    decodeBroadcast (BROADCAST_PREFIX ++ [122])
      = some (round ((100 * ((255 : ℚ) - (122 : ℕ))) / 255)) :=
  (C3_broadcast_decode 122 (by decide)).1

/-- C4 counterexample: the claim quantifies over EVERY payload whose last
7 bytes are the prefix with nothing after; but in
`BROADCAST_PREFIX ++ [0] ++ BROADCAST_PREFIX` the last 7 bytes are the
prefix with no byte after it, yet `find` locates the EARLIER occurrence
(index 0), which does have a trailing byte, so decoding returns position
100 instead of "not found". -/
theorem C4_counterexample :
    ((BROADCAST_PREFIX ++ [0] ++ BROADCAST_PREFIX).drop
        ((BROADCAST_PREFIX ++ [0] ++ BROADCAST_PREFIX).length - 7) = BROADCAST_PREFIX) ∧
    decodeBroadcast (BROADCAST_PREFIX ++ [0] ++ BROADCAST_PREFIX) = some 100 := by
  constructor
  · decide
  · have hfind : findSub BROADCAST_PREFIX (BROADCAST_PREFIX ++ [0] ++ BROADCAST_PREFIX)
        = some 0 := by decide
    simp only [decodeBroadcast, hfind]
    norm_num [BROADCAST_PREFIX, ha_position_eq]

/-- C4 amended: `decode_broadcast` returns "not found" (and, being total,
never raises) for every payload in which the 7-byte prefix occurs at no
offset, and for every payload in which the FIRST occurrence of the prefix
has no byte following it (in particular a payload ending in the prefix with
no earlier occurrence); a later prefix occurrence at the very end does not
force "not found" when an earlier occurrence has a trailing byte. -/
theorem C4_decode_not_found (data : List Nat)
    (h : (∀ i, ¬ BROADCAST_PREFIX <+: data.drop i) ∨
      (∃ i, BROADCAST_PREFIX <+: data.drop i ∧
        (∀ j, j < i → ¬ BROADCAST_PREFIX <+: data.drop j) ∧ data.length < i + 8)) :
    decodeBroadcast data = none := by
  rcases h with h | ⟨i, hp, hmin, hlen⟩
  · have hfind := (findSub_eq_none_iff BROADCAST_PREFIX data).mpr h
    simp only [decodeBroadcast, hfind]
  · have hfind := (findSub_eq_some_iff BROADCAST_PREFIX data i).mpr ⟨hp, hmin⟩
    have hcond : data.length < i + BROADCAST_PREFIX.length + 1 := by
      simp only [BROADCAST_PREFIX, List.length_cons, List.length_nil]
      omega
    simp only [decodeBroadcast, hfind, if_pos hcond]

/-- Witness for C4: a payload without the prefix, and a payload ending in
its only prefix occurrence, both decode to "not found". -/
theorem C4_decode_not_found_witness :
    decodeBroadcast [1, 2, 3] = none ∧ decodeBroadcast ([5] ++ BROADCAST_PREFIX) = none := by
  constructor
  · refine C4_decode_not_found [1, 2, 3] (Or.inl ?_)
    intro i hp
    have hle := hp.length_le
    simp only [BROADCAST_PREFIX, List.length_cons, List.length_nil, List.length_drop] at hle
    omega
  · refine C4_decode_not_found ([5] ++ BROADCAST_PREFIX) (Or.inr ⟨1, ?_, ?_, by decide⟩)
    · simp
    · intro j hj hp
      interval_cases j
      rcases hp with ⟨t, ht⟩
      simp [BROADCAST_PREFIX] at ht

/-- C5 counterexample: the spec miscomputes `255 - 0x7A` as 129; the code
computes `round(100 * (255 - 122) / 255) = round(52.156...) = 52`, so the
event does NOT decode to 51. -/
theorem C5_counterexample :
    handle_bluetooth_event "00:11:22:33:44:55" "00:11:22:33:44:55"
      (fun k => if k = 1412 then some [0xF7, 0x03, 0x20, 0x01, 0xF6, 0x10, 0x01, 0x7A] else none)
      ≠ some 51 := by
  rw [handle_event_7A]
  decide

/-- C5 amended: the manufacturer payload `F7 03 20 01 F6 10 01 7A` under
manufacturer id 1412 from the target address decodes to position 52
(`= round(100*(255-0x7A)/255) = round(100*133/255)`), not 51. -/
theorem C5_decode_event_7A :
    handle_bluetooth_event "00:11:22:33:44:55" "00:11:22:33:44:55"
      (fun k => if k = 1412 then some [0xF7, 0x03, 0x20, 0x01, 0xF6, 0x10, 0x01, 0x7A] else none)
      = some 52 ∧
    ha_position 0x7A = 52 := by
  refine ⟨handle_event_7A, ?_⟩
  rw [ha_position_eq]
  decide

/-- C6: whenever the discovery-cache lookup returns absent
(`deviceFound = false`), `send_command` fails with the device-not-found
error immediately: the action trace is exactly the single cache lookup —
no connect attempt and no retry — and the state is untouched. -/
theorem C6_device_not_found (env : Transport) (st : GiraBLEClient) (command : List Nat)
    (hclient : st._client = none) (hdev : env.deviceFound = false) :
    send_command env st command = (.error .deviceNotFound, st, [Action.resolveDevice]) := by
  have hst : st = ⟨none⟩ := by cases st; simpa using hclient
  subst hst
  rw [send_command_of_none]
  simp [freshSend, hdev]

/-- Witness for C6 on the concrete no-device transport. -/
theorem C6_device_not_found_witness :
    send_command envNoDevice ⟨none⟩ [0xF6]
      = (.error .deviceNotFound, ⟨none⟩, [Action.resolveDevice]) :=
  C6_device_not_found envNoDevice ⟨none⟩ [0xF6] rfl rfl

/-- C7: on every exit of the fresh-connection send the `finally` cleanup
runs: the stored handle ends cleared (`None`) on success, connect failure,
write failure and retry exhaustion alike; an established connection that is
still up at cleanup time is disconnected; and any subsequent send therefore
begins with a fresh resolve (its first transport action is the cache
lookup, not a reuse write). -/
theorem C7_cleanup_every_exit (env : Transport) (st : GiraBLEClient) (command : List Nat)
    (hclient : st._client = none) :
    (send_command env st command).2.1._client = none ∧
    (env.deviceFound = true → env.connectOk = true → env.connectedAtCleanup = true →
      Action.disconnect ∈ (send_command env st command).2.2) ∧
    (∀ (env2 : Transport) (command2 : List Nat),
      ((send_command env2 (send_command env st command).2.1 command2).2.2).head?
        = some Action.resolveDevice) := by
  have hst : st = ⟨none⟩ := by cases st; simpa using hclient
  subst hst
  refine ⟨?_, ?_, ?_⟩
  · rw [send_command_post_state]
  · intro hdf hco hcc
    exact send_command_disconnects env command hdf hco hcc
  · intro env2 command2
    rw [send_command_post_state]
    exact send_command_trace_head env2 command2

/-- Witness for C7 on the all-success transport. -/
theorem C7_cleanup_every_exit_witness :
    (send_command envAllOk ⟨none⟩ [1]).2.1._client = none ∧
    Action.disconnect ∈ (send_command envAllOk ⟨none⟩ [1]).2.2 := by
  have h := C7_cleanup_every_exit envAllOk ⟨none⟩ [1] rfl
  exact ⟨h.1, h.2.1 rfl rfl rfl⟩

/-- C8 counterexample: a send that successfully establishes a fresh
connection and writes the command (it returns ok, and the trace shows the
connect and the acknowledged write) nevertheless returns with
`self._client = None` — the `finally` block clears the handle before
`send_command` returns, so nothing is stored for the next send. -/
theorem C8_counterexample :
    (send_command envAllOk ⟨none⟩ [0xF6]).1 = .ok () ∧
    Action.establishConnection 60 5 ∈ (send_command envAllOk ⟨none⟩ [0xF6]).2.2 ∧
    Action.writeGattChar [0xF6] true ∈ (send_command envAllOk ⟨none⟩ [0xF6]).2.2 ∧
    (send_command envAllOk ⟨none⟩ [0xF6]).2.1 = ⟨none⟩ :=
  ⟨rfl, by decide, by decide, rfl⟩

/-- C8 amended: during the call the fresh handle is assigned to
`self._client` (line 180), but the unconditional `finally` cleanup clears it
to `None` before `send_command` returns; hence after every successful fresh
send no handle is retained for reuse, and the next send starts over. -/
theorem C8_handle_not_retained (env : Transport) (st : GiraBLEClient) (command : List Nat)
    (hclient : st._client = none) (hdf : env.deviceFound = true)
    (hco : env.connectOk = true) (hwo : env.writeOk = true) :
    (send_command env st command).1 = .ok () ∧
    (send_command env st command).2.1._client = none ∧
    Action.establishConnection 60 5 ∈ (send_command env st command).2.2 ∧
    Action.writeGattChar command true ∈ (send_command env st command).2.2 := by
  have hst : st = ⟨none⟩ := by cases st; simpa using hclient
  subst hst
  rw [send_command_of_none]
  cases hcc : env.connectedAtCleanup <;> simp [freshSend, hdf, hco, hwo, hcc]

/-- Witness for C8 (amended) on the all-success transport. -/
theorem C8_handle_not_retained_witness :
    (send_command envAllOk ⟨none⟩ [2]).1 = .ok () ∧
    (send_command envAllOk ⟨none⟩ [2]).2.1._client = none ∧
    Action.establishConnection 60 5 ∈ (send_command envAllOk ⟨none⟩ [2]).2.2 ∧
    Action.writeGattChar [2] true ∈ (send_command envAllOk ⟨none⟩ [2]).2.2 :=
  C8_handle_not_retained envAllOk ⟨none⟩ [2] rfl rfl rfl rfl

/-- C9: in every reachable client state the stored handle is `None` both at
the start and at the end of every `send_command` call; consequently the
already-connected `response=False` fast path is never taken, and every send
enters the resolve-connect-write-disconnect path (its trace starts with the
cache lookup and contains no `response=False` write). -/
theorem C9_client_none_invariant (st : GiraBLEClient) (h : ClientReachable st) :
    st._client = none ∧
    ∀ (env : Transport) (command : List Nat),
      (send_command env st command).2.1._client = none ∧
      (∀ c : List Nat, Action.writeGattChar c false ∉ (send_command env st command).2.2) ∧
      ((send_command env st command).2.2).head? = some Action.resolveDevice := by
  have hst := reachable_client_none h
  subst hst
  refine ⟨rfl, fun env command => ⟨?_, ?_, send_command_trace_head env command⟩⟩
  · rw [send_command_post_state]
  · intro c
    exact send_command_no_fast_write env command c

/-- Witness for C9 at the initial state and a concrete send. -/
theorem C9_client_none_invariant_witness :
    ((⟨none⟩ : GiraBLEClient)._client = none) ∧
    (send_command envAllOk ⟨none⟩ [3]).2.1._client = none ∧
    ((send_command envAllOk ⟨none⟩ [3]).2.2).head? = some Action.resolveDevice := by
  have h := C9_client_none_invariant ⟨none⟩ ClientReachable.init
  exact ⟨h.1, (h.2 envAllOk [3]).1, (h.2 envAllOk [3]).2.2⟩

/-- C10: the cover's `available` property reports `true` in every reachable
entity state — including states reached through staleness signals
(`_async_handle_unavailable`) and through failed sends that set the internal
`_attr_available` attribute to `False` (the property ignores it). -/
theorem C10_available_always_true (c : GiraBLEClient) (s : CoverState)
    (h : GireaSystem3000Cover.CoverReachable (c, s)) :
    GireaSystem3000Cover.available s = true := rfl

/-- Witness for C10: the state reached by an `async_open_cover` whose send
fails has `_attr_available = False` and is still reported available. -/
theorem C10_available_always_true_witness :
    GireaSystem3000Cover.available
      (GireaSystem3000Cover.async_open_cover envNoDevice ⟨none⟩ ⟨true, none, true⟩).2 = true ∧
    (GireaSystem3000Cover.async_open_cover envNoDevice ⟨none⟩ ⟨true, none, true⟩).2.attr_available
      = false := by
  refine ⟨C10_available_always_true _ _
    (GireaSystem3000Cover.CoverReachable.open_cover envNoDevice
      GireaSystem3000Cover.CoverReachable.init), ?_⟩
  decide

end GiraBLE
